import Mathlib

/-!
Shallow embedding of the `nug_wager_protocol` Anchor program
(repository `mcnuggies-wager-protocol`).

The instruction handlers are translated from `src/instructions/*.rs`
(the revision that carries the `is_claimed` flag on `BetCommitment`);
the account-level guards (`constraint = ...` attributes evaluated by the
host before the handler body runs) are translated from the `#[derive(Accounts)]`
context structs in `src/lib.rs`, which both revisions share.

Modelling conventions:
- Public keys are modelled as `Nat` identifiers.
- `u64` arithmetic is `Nat` with explicit checked operations
  (`checkedAdd64` / `checkedSub64`) mirroring `checked_add` / `checked_sub`,
  and the `as u64` narrowing cast is an explicit `% 2 ^ 64`.
- Rust `Option<i64>` comparisons in the constraints (`Some(now) < deadline`)
  use `optionLt`, the derived `Ord` of Rust's `Option` (`None` least).
- The keccak-256 digest is modelled as an abstract `Nat`-valued function
  passed to `reveal_and_claim`; the handler only ever compares the
  recomputed digest against the stored commitment for equality.
- Anchor's `close = player` attribute removes the bet account when the
  instruction completes successfully on a settlement path; the deferred
  path keeps the account alive so `withdraw_unpaid_bet` can find it,
  which is the stated purpose of `attempted_reveal` in the source.
- A whole-transaction failure carries no post-state (`Except.error`),
  mirroring the host's all-or-nothing rollback.
-/

namespace NugWager

/-- Source: `anchor_lang::solana_program::native_token::LAMPORTS_PER_SOL`. -/
def LAMPORTS_PER_SOL : Nat := 1000000000

/-- Source: `SUBMISSION_DEADLINE_TIMESTAMP` in `src/lib.rs`. -/
def SUBMISSION_DEADLINE_TIMESTAMP : Int := 1745208000

/-- Source: `REVEAL_DEADLINE_TIMESTAMP` in `src/lib.rs`. -/
def REVEAL_DEADLINE_TIMESTAMP : Int := 1745812800

/-- Source: `FINAL_CLAIM_DEADLINE_TIMESTAMP` in `src/lib.rs`. -/
def FINAL_CLAIM_DEADLINE_TIMESTAMP : Int := 1746408000

/-- Source: `PAYOUT_SCALE` in `src/lib.rs`. -/
def PAYOUT_SCALE : Nat := 1000000

/-- The hard-coded authority pubkey `GAME_AUTHORITY_PUBKEY`, as an abstract id. -/
def GAME_AUTHORITY_PUBKEY : Nat := 777

/-- Source: `PAYOUT_MULTIPLIER_LUT` in `src/lib.rs` (101 entries,
`round((3.9 * exp(-0.14 * x) + 0.1) * 1_000_000)` for `x = 0..100`). -/
def PAYOUT_MULTIPLIER_LUT : List Nat := [
  4000000, 3490497, 3047557, 2662483, 2327715, 2036683, 1783671, 1563713,
  1372491, 1206251, 1061728, 936086, 826859, 731900, 649348, 577580, 515188, 460947,
  413792, 372798, 337159, 306176, 279241, 255825, 235468, 217770, 202384, 189008,
  177380, 167271, 158483, 150842, 144200, 138426, 133406, 129042, 125248, 121949,
  119082, 116589, 114422, 112538, 110900, 109476, 108238, 107162, 106226, 105413,
  104705, 104091, 103556, 103092, 102688, 102337, 102031, 101766, 101535, 101335,
  101160, 101009, 100877, 100762, 100663, 100576, 100501, 100435, 100379, 100329,
  100286, 100249, 100216, 100188, 100163, 100142, 100124, 100107, 100093, 100081,
  100071, 100061, 100053, 100046, 100040, 100035, 100030, 100026, 100023, 100020,
  100017, 100015, 100013, 100011, 100010, 100009, 100008, 100007, 100006, 100005,
  100004, 100004, 100003]

/-- Array indexing `PAYOUT_MULTIPLIER_LUT[difference]` (guarded in the
source by `difference < PAYOUT_MULTIPLIER_LUT.len()`). -/
def lutGet (d : Nat) : Nat := PAYOUT_MULTIPLIER_LUT.getD d 0

/-- The payout computation of `reveal_and_claim`:
`((bet_amount as u128 * scaled_multiplier as u128) / (PAYOUT_SCALE as u128)) as u64`.
The `u128` product of two `u64` values cannot overflow, so the product is
exact; the final `as u64` cast is the `% 2 ^ 64`. -/
def payoutAmount (bet_amount : Nat) (difference : Nat) : Nat :=
  (bet_amount * lutGet difference / PAYOUT_SCALE) % (2 ^ 64)

/-- The same quantity without the final `u64` narrowing cast: the exact
mathematical `floor(amount * table[difference] / SCALE)` the spec describes. -/
def payoutFloor (bet_amount : Nat) (difference : Nat) : Nat :=
  bet_amount * lutGet difference / PAYOUT_SCALE

/-- Rust `u64::checked_add` on the `Nat` model. -/
def checkedAdd64 (a b : Nat) : Option Nat :=
  if a + b < 2 ^ 64 then some (a + b) else none

/-- Rust `u64::checked_sub` on the `Nat` model. -/
def checkedSub64 (a b : Nat) : Option Nat :=
  if b ≤ a then some (a - b) else none

/-- Rust's derived `Ord` on `Option<i64>`: `None` is least, `Some`s compare
by value.  The account constraints compare `Some(clock.unix_timestamp)`
against stored `Option<i64>` deadlines with exactly this order. -/
def optionLt : Option Int → Option Int → Bool
  | none, none => false
  | none, some _ => true
  | some _, none => false
  | some a, some b => decide (a < b)

/-- Source: `enum GameError` in `src/lib.rs`. -/
inductive GameError where
  | BettingClosed
  | ResultAlreadySubmitted
  | InvalidAuthority
  | InvalidBetValue
  | ResultNotSubmitted
  | RevealPeriodClosed
  | CommitmentMismatch
  | InvalidPlayerForCommitment
  | InvalidGameReference
  | Overflow
  | InvalidBetAmount
  | PlayerAlreadyCommitted
  | SubmissionPeriodExpired
  | RevealPeriodExpired
  | SubmissionDeadlineNotReached
  | RevealDeadlineNotReached
  | ResultAlreadySubmittedCannotReclaim
  | DeadlineNotSet
  | InsufficientTreasuryForReclaim
  | RevealDeadlineMustBeAfterSubmission
  | CleanupNotAllowedYet
  | InsufficientHostLiquidity
  | TotalPayoutPotDesynced
  | BetAlreadySettled
  | WithdrawPeriodNotReached
  | TreasuryClaimPeriodNotReached
  | InsufficientPlayerPot
  | TreasuryIsEmpty
deriving DecidableEq

/-- A transaction-level failure: either a `GameError` raised by a guard or
the handler, or the host failing to resolve / initialize a PDA account. -/
inductive TxError where
  | gameError (e : GameError)
  | accountNotFound
  | accountAlreadyExists
deriving DecidableEq

/-- Source: `struct Game` in `src/lib.rs` (the `bump` fields, which only
serve PDA signing, are elided). -/
structure Game where
  authority : Nat
  result : Option Nat
  is_open_for_bets : Bool
  is_open_for_reveals : Bool
  bet_count : Nat
  total_player_pot : Nat
  submission_deadline : Option Int
  reveal_deadline : Option Int
  final_claim_deadline : Option Int
deriving DecidableEq

/-- Source: `struct BetCommitment` in the `src/instructions` revision
(with `is_claimed`).  The `player` and `game` pubkey fields are realized
by the keying of the bet store, so they are not duplicated here. -/
structure BetCommitment where
  commitment : Nat
  amount : Nat
  attempted_reveal : Bool
  is_claimed : Bool
deriving DecidableEq

/-- The on-chain state the program touches: the singleton `Game` account,
the `BetCommitment` PDAs keyed by player, and the treasury PDA's lamport
balance (the escrow). -/
structure Chain where
  game : Game
  bets : List (Nat × BetCommitment)
  treasury : Nat
deriving DecidableEq

deriving instance DecidableEq for Except

/-- PDA lookup of the bet account keyed by player. -/
def findBet (p : Nat) : List (Nat × BetCommitment) → Option BetCommitment
  | [] => none
  | (q, b) :: rest => if q = p then some b else findBet p rest

/-- Anchor `close = player`: the bet account is removed from storage. -/
def removeBet (p : Nat) : List (Nat × BetCommitment) → List (Nat × BetCommitment)
  | [] => []
  | (q, b) :: rest => if q = p then rest else (q, b) :: removeBet p rest

/-- In-place mutation of the bet account keyed by player. -/
def setBet (p : Nat) (nb : BetCommitment) :
    List (Nat × BetCommitment) → List (Nat × BetCommitment)
  | [] => []
  | (q, b) :: rest => if q = p then (q, nb) :: rest else (q, b) :: setBet p nb rest

/-- Sum of the staked amounts over the bet accounts still in storage. -/
def potSum (bets : List (Nat × BetCommitment)) : Nat :=
  (bets.map (fun x => x.2.amount)).sum

/-- Anchor's `require!(cond, err)` / a `constraint = cond @ err` attribute:
abort the transaction with `err` unless `cond` holds. -/
def require (cond : Prop) [Decidable cond] (e : GameError)
    (k : Except TxError Chain) : Except TxError Chain :=
  if cond then k else .error (.gameError e)

/-- Rust's `expr.ok_or(err)?` on an `Option` value. -/
def okOr (v : Option Nat) (e : GameError) (k : Nat → Except TxError Chain) :
    Except TxError Chain :=
  match v with
  | some x => k x
  | none => .error (.gameError e)

/-- The host resolving a `BetCommitment` PDA named by the instruction's
account list; a missing account aborts the transaction. -/
def withAccount (v : Option BetCommitment)
    (k : BetCommitment → Except TxError Chain) : Except TxError Chain :=
  match v with
  | some b => k b
  | none => .error .accountNotFound

@[simp] lemma require_eq_ok_iff (cond : Prop) [Decidable cond] (e : GameError)
    (k : Except TxError Chain) (s' : Chain) :
    require cond e k = .ok s' ↔ cond ∧ k = .ok s' := by
  unfold require
  split <;> simp_all

@[simp] lemma require_eq_error_iff (cond : Prop) [Decidable cond] (e : GameError)
    (k : Except TxError Chain) (t : TxError) :
    require cond e k = .error t ↔
      (¬ cond ∧ t = .gameError e) ∨ (cond ∧ k = .error t) := by
  unfold require
  split <;> simp_all [eq_comm]

@[simp] lemma okOr_eq_ok_iff (v : Option Nat) (e : GameError)
    (k : Nat → Except TxError Chain) (s' : Chain) :
    okOr v e k = .ok s' ↔ ∃ x, v = some x ∧ k x = .ok s' := by
  cases v <;> simp [okOr]

@[simp] lemma withAccount_eq_ok_iff (v : Option BetCommitment)
    (k : BetCommitment → Except TxError Chain) (s' : Chain) :
    withAccount v k = .ok s' ↔ ∃ b, v = some b ∧ k b = .ok s' := by
  cases v <;> simp [withAccount]

@[simp] lemma checkedAdd64_eq_some_iff (a b x : Nat) :
    checkedAdd64 a b = some x ↔ a + b < 2 ^ 64 ∧ x = a + b := by
  unfold checkedAdd64
  split <;> simp_all [eq_comm]

@[simp] lemma checkedSub64_eq_some_iff (a b x : Nat) :
    checkedSub64 a b = some x ↔ b ≤ a ∧ x = a - b := by
  unfold checkedSub64
  split <;> simp_all [eq_comm]

lemma require_pos {c : Prop} [Decidable c] (h : c) (e : GameError)
    (k : Except TxError Chain) : require c e k = k := if_pos h

lemma require_neg {c : Prop} [Decidable c] (h : ¬ c) (e : GameError)
    (k : Except TxError Chain) : require c e k = .error (.gameError e) := if_neg h

@[simp] lemma okOr_some (x : Nat) (e : GameError) (k : Nat → Except TxError Chain) :
    okOr (some x) e k = k x := rfl

@[simp] lemma withAccount_some (b : BetCommitment)
    (k : BetCommitment → Except TxError Chain) : withAccount (some b) k = k b := rfl

@[simp] lemma withAccount_none (k : BetCommitment → Except TxError Chain) :
    withAccount none k = .error .accountNotFound := rfl

lemma checkedSub64_of_le {a b : Nat} (h : b ≤ a) : checkedSub64 a b = some (a - b) := by
  simp [checkedSub64, h]

lemma checkedAdd64_of_lt {a b : Nat} (h : a + b < 2 ^ 64) :
    checkedAdd64 a b = some (a + b) := by
  unfold checkedAdd64
  rw [if_pos h]

lemma ite_error_eq_ok_iff (c : Prop) [Decidable c] (t : TxError)
    (k : Except TxError Chain) (s' : Chain) :
    (if c then Except.error t else k) = .ok s' ↔ ¬ c ∧ k = .ok s' := by
  split <;> simp_all

lemma ite_except_eq_ok_iff (c : Prop) [Decidable c] (k1 k2 : Except TxError Chain)
    (s' : Chain) :
    (if c then k1 else k2) = .ok s' ↔
      (c ∧ k1 = .ok s') ∨ (¬ c ∧ k2 = .ok s') := by
  split <;> simp_all

/-- Source: `initialize_game` in `src/instructions/initialize_game.rs`.
`treasury0` is the lamport balance the treasury PDA already holds when the
game record is created (the account may be pre-funded by the operator). -/
def initialize_game (treasury0 : Nat) : Chain :=
  { game :=
      { authority := GAME_AUTHORITY_PUBKEY
        result := none
        is_open_for_bets := true
        is_open_for_reveals := false
        bet_count := 0
        total_player_pot := 0
        submission_deadline := some SUBMISSION_DEADLINE_TIMESTAMP
        reveal_deadline := none
        final_claim_deadline := none }
    bets := []
    treasury := treasury0 }

/-- Source: `commit_bet` in `src/instructions/commit_bet.rs`, with the
account guards of `struct CommitBet` in `src/lib.rs` evaluated first
(betting phase open, result unset, submission deadline set and not yet
reached, bet PDA not yet initialized). -/
def commit_bet (s : Chain) (player : Nat) (commitment : Nat) (amount : Nat)
    (now : Int) : Except TxError Chain :=
  require (s.game.is_open_for_bets = true ∧ s.game.is_open_for_reveals = false)
    .BettingClosed <|
  require (s.game.result = none) .ResultAlreadySubmitted <|
  require (¬ s.game.submission_deadline = none) .DeadlineNotSet <|
  require (optionLt (some now) s.game.submission_deadline = true)
    .SubmissionDeadlineNotReached <|
  if ¬ findBet player s.bets = none then .error .accountAlreadyExists else
  require (0 < amount ∧ amount ≤ LAMPORTS_PER_SOL) .InvalidBetAmount <|
  okOr (checkedAdd64 s.game.bet_count 1) .Overflow fun count' =>
  okOr (checkedAdd64 s.game.total_player_pot amount) .Overflow fun pot' =>
  .ok { game := { s.game with bet_count := count', total_player_pot := pot' }
        bets := (player,
          { commitment := commitment
            amount := amount
            attempted_reveal := false
            is_claimed := false }) :: s.bets
        treasury := s.treasury + amount }

/-- Source: `submit_results` in `src/instructions/submit_results.rs`, with
the account guards of `struct SubmitResult` in `src/lib.rs` evaluated
first.  Note the deadline guard is written in the source as
`Some(clock.unix_timestamp) < game.reveal_deadline`, i.e. against the
(still unset) reveal deadline, not the submission deadline. -/
def submit_results (s : Chain) (caller : Nat) (result : Nat) (now : Int) :
    Except TxError Chain :=
  require (caller = s.game.authority) .InvalidAuthority <|
  require (s.game.is_open_for_bets = true) .RevealPeriodClosed <|
  require (s.game.result = none) .ResultAlreadySubmitted <|
  require (¬ s.game.submission_deadline = none) .DeadlineNotSet <|
  require (optionLt (some now) s.game.reveal_deadline = true)
    .RevealDeadlineNotReached <|
  require (result ≤ 100) .InvalidBetValue <|
  .ok { s with game :=
    { s.game with
        result := some result
        is_open_for_bets := false
        is_open_for_reveals := true
        reveal_deadline := some REVEAL_DEADLINE_TIMESTAMP } }

/-- The `--- Claim Logic ---` section of `reveal_and_claim`
(`src/instructions/reveal_and_claim.rs`), reached once the account guards,
bet-value range check and commitment check have passed:
settle the bet as a loss, a zero-payout win, a deferred win or a paid win. -/
def revealSettle (s : Chain) (player : Nat) (bc : BetCommitment)
    (true_result bet_value : Nat) : Except TxError Chain :=
  if true_result < bet_value then
    okOr (checkedSub64 s.game.total_player_pot bc.amount)
      .TotalPayoutPotDesynced fun pot' =>
    .ok { s with
      game := { s.game with total_player_pot := pot' }
      bets := removeBet player s.bets }
  else
    require (true_result - bet_value < PAYOUT_MULTIPLIER_LUT.length)
      .InvalidBetValue <|
    if payoutAmount bc.amount (true_result - bet_value) = 0 then
      okOr (checkedSub64 s.game.total_player_pot bc.amount)
        .TotalPayoutPotDesynced fun pot' =>
      .ok { s with
        game := { s.game with total_player_pot := pot' }
        bets := removeBet player s.bets }
    else
      okOr (checkedSub64 s.treasury s.game.total_player_pot)
        .TotalPayoutPotDesynced fun host_liquidity =>
      if host_liquidity < payoutAmount bc.amount (true_result - bet_value) then
        .ok { s with
          game := { s.game with
            final_claim_deadline := some FINAL_CLAIM_DEADLINE_TIMESTAMP }
          bets := setBet player
            { bc with attempted_reveal := true, is_claimed := false }
            s.bets }
      else
        okOr (checkedSub64 s.game.total_player_pot bc.amount)
          .TotalPayoutPotDesynced fun pot' =>
        .ok { s with
          game := { s.game with total_player_pot := pot' }
          bets := removeBet player s.bets
          treasury :=
            s.treasury - payoutAmount bc.amount (true_result - bet_value) }

/-- Source: `reveal_and_claim` in `src/instructions/reveal_and_claim.rs`,
with the account guards of `struct RevealAndClaim` in `src/lib.rs`
evaluated first.  `hash` is the keccak-256 digest of
`bet_value.to_le_bytes() || salt.to_le_bytes()`, modelled abstractly.
On the loss, zero-payout and paid paths the bet account is closed
(`close = player`); on the deferred path it stays alive carrying
`attempted_reveal = true`. -/
def reveal_and_claim (hash : Nat → Nat → Nat) (s : Chain) (player : Nat)
    (bet_value : Nat) (salt : Nat) (now : Int) : Except TxError Chain :=
  require (s.game.is_open_for_reveals = true) .RevealPeriodClosed <|
  require (¬ s.game.submission_deadline = none) .DeadlineNotSet <|
  require (optionLt (some now) s.game.reveal_deadline = true)
    .RevealDeadlineNotReached <|
  withAccount (findBet player s.bets) fun bc =>
  require (bc.amount ≤ s.game.total_player_pot) .InsufficientPlayerPot <|
  require (bet_value ≤ 100) .InvalidBetValue <|
  match s.game.result with
  | none => .error (.gameError .ResultNotSubmitted)
  | some true_result =>
    require (hash bet_value salt = bc.commitment) .CommitmentMismatch <|
    revealSettle s player bc true_result bet_value

/-- Source: `withdraw_unpaid_bet` in `src/instructions/withdraw_unpaid_bet.rs`,
with the account guards of `struct WithdrawUnpaidBet` in `src/lib.rs`
evaluated first (`attempted_reveal` set, reveal deadline strictly passed,
final claim deadline set and strictly not yet reached). -/
def withdraw_unpaid_bet (s : Chain) (player : Nat) (now : Int) :
    Except TxError Chain :=
  require (s.game.is_open_for_reveals = true) .RevealPeriodClosed <|
  withAccount (findBet player s.bets) fun bc =>
  require (bc.attempted_reveal = true) .BetAlreadySettled <|
  require (¬ s.game.reveal_deadline = none) .DeadlineNotSet <|
  require (optionLt s.game.reveal_deadline (some now) = true)
    .WithdrawPeriodNotReached <|
  require (¬ s.game.final_claim_deadline = none) .DeadlineNotSet <|
  require (optionLt (some now) s.game.final_claim_deadline = true)
    .WithdrawPeriodNotReached <|
  require (bc.amount ≤ s.treasury) .InsufficientTreasuryForReclaim <|
  okOr (checkedSub64 s.game.total_player_pot bc.amount)
    .TotalPayoutPotDesynced fun pot' =>
  .ok { game := { s.game with total_player_pot := pot' }
        bets := removeBet player s.bets
        treasury := s.treasury - bc.amount }

/-- Source: `reclaim_bet_on_timeout` in
`src/instructions/reclaim_bet_on_timeout.rs`, with the account guards of
`struct ReclaimBetOnTimeout` in `src/lib.rs` evaluated first (result
unset, submission deadline set and strictly passed:
`Some(clock.unix_timestamp) > game.submission_deadline`). -/
def reclaim_bet_on_timeout (s : Chain) (player : Nat) (now : Int) :
    Except TxError Chain :=
  require (s.game.result = none) .ResultAlreadySubmitted <|
  require (¬ s.game.submission_deadline = none) .DeadlineNotSet <|
  require (optionLt s.game.submission_deadline (some now) = true)
    .SubmissionPeriodExpired <|
  withAccount (findBet player s.bets) fun bc =>
  require (bc.amount ≤ s.treasury) .InsufficientTreasuryForReclaim <|
  okOr (checkedSub64 s.game.total_player_pot bc.amount)
    .TotalPayoutPotDesynced fun pot' =>
  .ok { game := { s.game with total_player_pot := pot' }
        bets := removeBet player s.bets
        treasury := s.treasury - bc.amount }

/-- Source: `claim_remaining_treasury` in
`src/instructions/claim_remaining_treasury.rs`, with the account guards of
`struct ClaimRemainingTreasury` in `src/lib.rs` evaluated first (caller is
the authority, result set, reveal deadline set and reached, final claim
deadline unset or reached).  The handler sweeps the entire treasury
balance to the authority and never touches `total_player_pot`. -/
def claim_remaining_treasury (s : Chain) (caller : Nat) (now : Int) :
    Except TxError Chain :=
  require (caller = s.game.authority) .InvalidAuthority <|
  require (¬ s.game.result = none) .ResultAlreadySubmitted <|
  require (¬ s.game.reveal_deadline = none) .DeadlineNotSet <|
  require (optionLt (some now) s.game.reveal_deadline = false)
    .SubmissionPeriodExpired <|
  require (s.game.final_claim_deadline = none ∨
      optionLt (some now) s.game.final_claim_deadline = false)
    .TreasuryClaimPeriodNotReached <|
  .ok { s with treasury := 0 }

/-! Helper lemmas about the bet store. -/

lemma potSum_cons (q : Nat) (b : BetCommitment) (l : List (Nat × BetCommitment)) :
    potSum ((q, b) :: l) = b.amount + potSum l := by
  simp [potSum]

lemma potSum_removeBet (p : Nat) (l : List (Nat × BetCommitment)) (b : BetCommitment)
    (h : findBet p l = some b) : potSum (removeBet p l) + b.amount = potSum l := by
  induction l with
  | nil => simp [findBet] at h
  | cons hd tl ih =>
    obtain ⟨q, b'⟩ := hd
    by_cases hq : q = p
    · simp only [findBet, if_pos hq, Option.some.injEq] at h
      subst h
      simp [removeBet, if_pos hq, potSum_cons]
      omega
    · simp only [findBet, if_neg hq] at h
      have hih := ih h
      simp only [removeBet, if_neg hq, potSum_cons]
      omega

lemma potSum_setBet (p : Nat) (nb : BetCommitment) (l : List (Nat × BetCommitment))
    (b : BetCommitment) (h : findBet p l = some b) (ha : nb.amount = b.amount) :
    potSum (setBet p nb l) = potSum l := by
  induction l with
  | nil => simp [findBet] at h
  | cons hd tl ih =>
    obtain ⟨q, b'⟩ := hd
    by_cases hq : q = p
    · simp only [findBet, if_pos hq, Option.some.injEq] at h
      subst h
      simp [setBet, if_pos hq, potSum_cons, ha]
    · simp only [findBet, if_neg hq] at h
      have hih := ih h
      simp only [setBet, if_neg hq, potSum_cons, hih]

lemma findBet_amount_le_potSum (p : Nat) (l : List (Nat × BetCommitment))
    (b : BetCommitment) (h : findBet p l = some b) : b.amount ≤ potSum l := by
  have := potSum_removeBet p l b h
  omega

lemma findBet_setBet (p : Nat) (nb : BetCommitment) (l : List (Nat × BetCommitment))
    (b : BetCommitment) (h : findBet p l = some b) :
    findBet p (setBet p nb l) = some nb := by
  induction l with
  | nil => simp [findBet] at h
  | cons hd tl ih =>
    obtain ⟨q, b'⟩ := hd
    by_cases hq : q = p
    · simp [setBet, if_pos hq, findBet]
    · simp only [findBet, if_neg hq] at h
      simp [setBet, if_neg hq, findBet, hq, ih h]

lemma okOr_eq_error_iff (v : Option Nat) (e : GameError)
    (k : Nat → Except TxError Chain) (t : TxError) :
    okOr v e k = .error t ↔
      (v = none ∧ t = .gameError e) ∨ ∃ x, v = some x ∧ k x = .error t := by
  cases v <;> simp [okOr, eq_comm]

@[simp] lemma checkedSub64_eq_none_iff (a b : Nat) :
    checkedSub64 a b = none ↔ a < b := by
  unfold checkedSub64
  split <;> simp_all

/-- Once the phase guards, the account resolution, the pot guard, the
range check and the commitment check of `reveal_and_claim` all pass, the
handler runs the claim-logic section. -/
lemma reveal_and_claim_guards (hash : Nat → Nat → Nat) (s : Chain)
    (p g sl : Nat) (now : Int) (bc : BetCommitment) (r : Nat)
    (hopen : s.game.is_open_for_reveals = true)
    (hsub : ¬ s.game.submission_deadline = none)
    (hrd : optionLt (some now) s.game.reveal_deadline = true)
    (hbc : findBet p s.bets = some bc)
    (hpot : bc.amount ≤ s.game.total_player_pot)
    (hg : g ≤ 100)
    (hres : s.game.result = some r)
    (hhash : hash g sl = bc.commitment) :
    reveal_and_claim hash s p g sl now = revealSettle s p bc r g := by
  simp only [reveal_and_claim, require_pos hopen, require_pos hsub, require_pos hrd,
    hbc, withAccount_some, require_pos hpot, require_pos hg, hres,
    require_pos hhash]

lemma revealSettle_loss (s : Chain) (p : Nat) (bc : BetCommitment) (r g : Nat)
    (hloss : r < g) (hpot : bc.amount ≤ s.game.total_player_pot) :
    revealSettle s p bc r g =
      .ok { s with
        game := { s.game with
          total_player_pot := s.game.total_player_pot - bc.amount }
        bets := removeBet p s.bets } := by
  unfold revealSettle
  rw [if_pos hloss, checkedSub64_of_le hpot, okOr_some]

lemma revealSettle_zero (s : Chain) (p : Nat) (bc : BetCommitment) (r g : Nat)
    (hwin : ¬ r < g) (hlen : r - g < PAYOUT_MULTIPLIER_LUT.length)
    (hz : payoutAmount bc.amount (r - g) = 0)
    (hpot : bc.amount ≤ s.game.total_player_pot) :
    revealSettle s p bc r g =
      .ok { s with
        game := { s.game with
          total_player_pot := s.game.total_player_pot - bc.amount }
        bets := removeBet p s.bets } := by
  unfold revealSettle
  rw [if_neg hwin, require_pos hlen, if_pos hz, checkedSub64_of_le hpot, okOr_some]

lemma revealSettle_deferred (s : Chain) (p : Nat) (bc : BetCommitment) (r g : Nat)
    (hwin : ¬ r < g) (hlen : r - g < PAYOUT_MULTIPLIER_LUT.length)
    (hnz : ¬ payoutAmount bc.amount (r - g) = 0)
    (hliq : s.game.total_player_pot ≤ s.treasury)
    (hover : s.treasury - s.game.total_player_pot < payoutAmount bc.amount (r - g)) :
    revealSettle s p bc r g =
      .ok { s with
        game := { s.game with
          final_claim_deadline := some FINAL_CLAIM_DEADLINE_TIMESTAMP }
        bets := setBet p { bc with attempted_reveal := true, is_claimed := false }
          s.bets } := by
  unfold revealSettle
  rw [if_neg hwin, require_pos hlen, if_neg hnz, checkedSub64_of_le hliq, okOr_some,
    if_pos hover]

lemma revealSettle_paid (s : Chain) (p : Nat) (bc : BetCommitment) (r g : Nat)
    (hwin : ¬ r < g) (hlen : r - g < PAYOUT_MULTIPLIER_LUT.length)
    (hnz : ¬ payoutAmount bc.amount (r - g) = 0)
    (hliq : s.game.total_player_pot ≤ s.treasury)
    (hcover : ¬ s.treasury - s.game.total_player_pot <
      payoutAmount bc.amount (r - g))
    (hpot : bc.amount ≤ s.game.total_player_pot) :
    revealSettle s p bc r g =
      .ok { s with
        game := { s.game with
          total_player_pot := s.game.total_player_pot - bc.amount }
        bets := removeBet p s.bets
        treasury := s.treasury - payoutAmount bc.amount (r - g) } := by
  unfold revealSettle
  rw [if_neg hwin, require_pos hlen, if_neg hnz, checkedSub64_of_le hliq, okOr_some,
    if_neg hcover, checkedSub64_of_le hpot, okOr_some]

/-- The escrow-accounting invariant of the spec: the treasury balance
covers the pot, and the pot is the sum of the staked amounts over the bet
accounts still in storage (i.e. not yet settled). -/
def EscrowInv (s : Chain) : Prop :=
  s.game.total_player_pot ≤ s.treasury ∧ s.game.total_player_pot = potSum s.bets

instance (s : Chain) : Decidable (EscrowInv s) := by
  unfold EscrowInv
  infer_instance

lemma initialize_game_inv (t0 : Nat) : EscrowInv (initialize_game t0) := by
  constructor <;> simp [initialize_game, potSum]

lemma commit_bet_inv (s : Chain) (p c a : Nat) (now : Int) (s' : Chain)
    (hI : EscrowInv s) (h : commit_bet s p c a now = Except.ok s') : EscrowInv s' := by
  obtain ⟨h1, h2⟩ := hI
  simp only [commit_bet, require_eq_ok_iff, ite_error_eq_ok_iff, okOr_eq_ok_iff,
    checkedAdd64_eq_some_iff, Except.ok.injEq] at h
  obtain ⟨-, -, -, -, -, -, count', ⟨-, hc⟩, pot', ⟨-, hp⟩, hs⟩ := h
  subst hs
  constructor
  · simp only [hp]
    omega
  · simp only [hp, potSum_cons]
    omega

lemma submit_results_inv (s : Chain) (caller r : Nat) (now : Int) (s' : Chain)
    (hI : EscrowInv s) (h : submit_results s caller r now = Except.ok s') :
    EscrowInv s' := by
  obtain ⟨h1, h2⟩ := hI
  simp only [submit_results, require_eq_ok_iff, Except.ok.injEq] at h
  obtain ⟨-, -, -, -, -, -, hs⟩ := h
  subst hs
  exact ⟨h1, h2⟩

lemma reveal_and_claim_inv (hash : Nat → Nat → Nat) (s : Chain)
    (p g sl : Nat) (now : Int) (s' : Chain)
    (hI : EscrowInv s) (h : reveal_and_claim hash s p g sl now = Except.ok s') :
    EscrowInv s' := by
  obtain ⟨h1, h2⟩ := hI
  cases hres : s.game.result with
  | none =>
    simp only [reveal_and_claim, hres, require_eq_ok_iff, withAccount_eq_ok_iff] at h
    obtain ⟨-, -, -, bc, hbc, -, -, h⟩ := h
    exact Except.noConfusion h
  | some tr =>
    simp only [reveal_and_claim, revealSettle, hres, require_eq_ok_iff,
      withAccount_eq_ok_iff, okOr_eq_ok_iff, checkedSub64_eq_some_iff,
      ite_except_eq_ok_iff, Except.ok.injEq] at h
    obtain ⟨-, -, -, bc, hbc, hle, -, -, h⟩ := h
    have hsum := potSum_removeBet p s.bets bc hbc
    rcases h with ⟨-, pot', ⟨hple, hp⟩, hs⟩ |
      ⟨-, -, h⟩
    · subst hs
      refine ⟨by simp only [hp]; omega, ?_⟩
      simp only [hp]
      omega
    · rcases h with ⟨-, pot', ⟨hple, hp⟩, hs⟩ | ⟨-, hl, ⟨hlle, hlv⟩, h⟩
      · subst hs
        refine ⟨by simp only [hp]; omega, ?_⟩
        simp only [hp]
        omega
      · rcases h with ⟨hdef, hs⟩ | ⟨hpaid, pot', ⟨hple, hp⟩, hs⟩
        · subst hs
          refine ⟨by simpa using h1, ?_⟩
          have hset := potSum_setBet p
            { bc with attempted_reveal := true, is_claimed := false }
            s.bets bc hbc rfl
          simpa [hset] using h2
        · subst hs
          constructor
          · simp only [hp]
            omega
          · simp only [hp]
            omega

lemma withdraw_unpaid_bet_inv (s : Chain) (p : Nat) (now : Int) (s' : Chain)
    (hI : EscrowInv s) (h : withdraw_unpaid_bet s p now = Except.ok s') :
    EscrowInv s' := by
  obtain ⟨h1, h2⟩ := hI
  simp only [withdraw_unpaid_bet, require_eq_ok_iff, withAccount_eq_ok_iff,
    okOr_eq_ok_iff, checkedSub64_eq_some_iff, Except.ok.injEq] at h
  obtain ⟨-, bc, hbc, -, -, -, -, -, htr, pot', ⟨hple, hp⟩, hs⟩ := h
  subst hs
  have hsum := potSum_removeBet p s.bets bc hbc
  constructor
  · simp only [hp]
    omega
  · simp only [hp]
    omega

lemma reclaim_bet_on_timeout_inv (s : Chain) (p : Nat) (now : Int) (s' : Chain)
    (hI : EscrowInv s) (h : reclaim_bet_on_timeout s p now = Except.ok s') :
    EscrowInv s' := by
  obtain ⟨h1, h2⟩ := hI
  simp only [reclaim_bet_on_timeout, require_eq_ok_iff, withAccount_eq_ok_iff,
    okOr_eq_ok_iff, checkedSub64_eq_some_iff, Except.ok.injEq] at h
  obtain ⟨-, -, -, bc, hbc, htr, pot', ⟨hple, hp⟩, hs⟩ := h
  subst hs
  have hsum := potSum_removeBet p s.bets bc hbc
  constructor
  · simp only [hp]
    omega
  · simp only [hp]
    omega

lemma claim_remaining_treasury_pot (s : Chain) (caller : Nat) (now : Int) (s' : Chain)
    (hI : EscrowInv s) (h : claim_remaining_treasury s caller now = Except.ok s') :
    s'.game.total_player_pot = potSum s'.bets := by
  obtain ⟨h1, h2⟩ := hI
  simp only [claim_remaining_treasury, require_eq_ok_iff, Except.ok.injEq] at h
  obtain ⟨-, -, -, -, -, hs⟩ := h
  subst hs
  exact h2

/-! Claim theorems. -/

/-- A reveal-phase state with one outstanding 5-lamport bet, an exactly
backing treasury, and the reveal deadline elapsed. -/
def sweepCounterState : Chain :=
  { game :=
      { authority := GAME_AUTHORITY_PUBKEY
        result := some 50
        is_open_for_bets := false
        is_open_for_reveals := true
        bet_count := 1
        total_player_pot := 5
        submission_deadline := some SUBMISSION_DEADLINE_TIMESTAMP
        reveal_deadline := some REVEAL_DEADLINE_TIMESTAMP
        final_claim_deadline := none }
    bets := [(1,
      { commitment := 0, amount := 5, attempted_reveal := false, is_claimed := false })]
    treasury := 5 }

/-- C1 counterexample: from a state satisfying the escrow invariant
(`escrowBalance ≥ pot` and `pot = Σ amount` over stored bets), a
successful `ClaimRemainingTreasury` sweeps the whole escrow while a bet is
still unsettled, leaving `escrowBalance = 0 < 5 = pot`.  So the invariant
does not hold after every successful operation. -/
theorem sweep_breaks_escrow_invariant :
    EscrowInv sweepCounterState ∧
    claim_remaining_treasury sweepCounterState GAME_AUTHORITY_PUBKEY
        REVEAL_DEADLINE_TIMESTAMP =
      Except.ok { sweepCounterState with treasury := 0 } ∧
    ¬ EscrowInv { sweepCounterState with treasury := 0 } :=
  ⟨by decide, by decide, by decide⟩

/-- C1 (amended): the escrow invariant (`escrowBalance ≥ pot` and
`pot = Σ amount` over the bet accounts not yet settled, i.e. still stored)
holds after `InitializeGame` and is preserved by every successful
`CommitBet`, `SubmitResult`, `RevealAndClaim`, `WithdrawUnpaidBet` and
`ReclaimBetOnTimeout`.  `ClaimRemainingTreasury` preserves only
`pot = Σ amount`: it empties the escrow without reconciling the pot, so
`escrowBalance ≥ pot` can fail after it (see the counterexample). -/
theorem escrow_invariant_preserved_by_non_sweep_ops :
    (∀ t0 : Nat, EscrowInv (initialize_game t0)) ∧
    (∀ (s : Chain) (p c a : Nat) (now : Int) (s' : Chain), EscrowInv s →
      commit_bet s p c a now = Except.ok s' → EscrowInv s') ∧
    (∀ (s : Chain) (caller r : Nat) (now : Int) (s' : Chain), EscrowInv s →
      submit_results s caller r now = Except.ok s' → EscrowInv s') ∧
    (∀ (hash : Nat → Nat → Nat) (s : Chain) (p g sl : Nat) (now : Int)
      (s' : Chain), EscrowInv s →
      reveal_and_claim hash s p g sl now = Except.ok s' → EscrowInv s') ∧
    (∀ (s : Chain) (p : Nat) (now : Int) (s' : Chain), EscrowInv s →
      withdraw_unpaid_bet s p now = Except.ok s' → EscrowInv s') ∧
    (∀ (s : Chain) (p : Nat) (now : Int) (s' : Chain), EscrowInv s →
      reclaim_bet_on_timeout s p now = Except.ok s' → EscrowInv s') ∧
    (∀ (s : Chain) (caller : Nat) (now : Int) (s' : Chain), EscrowInv s →
      claim_remaining_treasury s caller now = Except.ok s' →
      s'.game.total_player_pot = potSum s'.bets) :=
  ⟨initialize_game_inv, commit_bet_inv, submit_results_inv, reveal_and_claim_inv,
    withdraw_unpaid_bet_inv, reclaim_bet_on_timeout_inv, claim_remaining_treasury_pot⟩

theorem escrow_invariant_preserved_by_non_sweep_ops_witness :
    EscrowInv
      { game :=
          { authority := GAME_AUTHORITY_PUBKEY
            result := none
            is_open_for_bets := true
            is_open_for_reveals := false
            bet_count := 1
            total_player_pot := 5
            submission_deadline := some SUBMISSION_DEADLINE_TIMESTAMP
            reveal_deadline := none
            final_claim_deadline := none }
        bets := [(1,
          { commitment := 99, amount := 5
            attempted_reveal := false, is_claimed := false })]
        treasury := 5 } :=
  escrow_invariant_preserved_by_non_sweep_ops.2.1 (initialize_game 0) 1 99 5
    1745200000 _ (by decide) (by decide)

/-- C3 (code bug): `SubmitResult` can never succeed.  On a freshly
initialized game, for every call time and every outcome value the
authority's `SubmitResult` is rejected with `RevealDeadlineNotReached`,
because the deadline constraint in `struct SubmitResult` compares the
clock against `game.reveal_deadline` — which is still `None` until
`SubmitResult` itself runs, and `Some(now) < None` is false in Rust's
`Option` ordering — instead of against `game.submission_deadline`. -/
theorem submit_result_always_rejected (t0 r : Nat) (now : Int) :
    submit_results (initialize_game t0) GAME_AUTHORITY_PUBKEY r now =
      Except.error (.gameError .RevealDeadlineNotReached) := by
  unfold submit_results initialize_game
  rw [require_pos rfl, require_pos rfl, require_pos rfl,
    require_pos (by simp), require_neg (by simp [optionLt])]

/-- C2: a reveal with a matching commitment, `guess ≤ outcome`, and a
payout exceeding the operator liquidity (`escrowBalance - pot`) completes
successfully, transfers no funds (treasury unchanged), leaves the pot
unchanged, marks the bet `attempted_reveal = true` and `is_claimed =
false`, and establishes the final claim deadline (in particular setting it
if it was unset). -/
theorem deferred_reveal_completes_without_transfer
    (hash : Nat → Nat → Nat) (s : Chain) (p g sl : Nat) (now : Int)
    (bc : BetCommitment) (r : Nat)
    (hopen : s.game.is_open_for_reveals = true)
    (hsub : ¬ s.game.submission_deadline = none)
    (hrd : optionLt (some now) s.game.reveal_deadline = true)
    (hbc : findBet p s.bets = some bc)
    (hpot : bc.amount ≤ s.game.total_player_pot)
    (hg : g ≤ 100)
    (hres : s.game.result = some r)
    (hhash : hash g sl = bc.commitment)
    (hwin : g ≤ r) (hr : r ≤ 100)
    (hliq : s.game.total_player_pot ≤ s.treasury)
    (hover : s.treasury - s.game.total_player_pot <
      payoutAmount bc.amount (r - g)) :
    ∃ s', reveal_and_claim hash s p g sl now = Except.ok s' ∧
      s'.treasury = s.treasury ∧
      s'.game.total_player_pot = s.game.total_player_pot ∧
      s'.game.final_claim_deadline = some FINAL_CLAIM_DEADLINE_TIMESTAMP ∧
      findBet p s'.bets =
        some { bc with attempted_reveal := true, is_claimed := false } := by
  have hlen : r - g < PAYOUT_MULTIPLIER_LUT.length := by
    have hL : PAYOUT_MULTIPLIER_LUT.length = 101 := rfl
    omega
  refine ⟨{ s with
      game := { s.game with
        final_claim_deadline := some FINAL_CLAIM_DEADLINE_TIMESTAMP }
      bets := setBet p { bc with attempted_reveal := true, is_claimed := false }
        s.bets }, ?_, rfl, rfl, rfl, findBet_setBet p _ s.bets bc hbc⟩
  rw [reveal_and_claim_guards hash s p g sl now bc r hopen hsub hrd hbc hpot hg
    hres hhash]
  exact revealSettle_deferred s p bc r g (by omega) hlen (by omega) hliq hover

theorem deferred_reveal_completes_without_transfer_witness :
    ∃ s', reveal_and_claim (fun g sl => g * 1000 + sl)
        { game :=
            { authority := GAME_AUTHORITY_PUBKEY
              result := some 50
              is_open_for_bets := false
              is_open_for_reveals := true
              bet_count := 1
              total_player_pot := 5
              submission_deadline := some SUBMISSION_DEADLINE_TIMESTAMP
              reveal_deadline := some REVEAL_DEADLINE_TIMESTAMP
              final_claim_deadline := none }
          bets := [(1,
            { commitment := 50007, amount := 5
              attempted_reveal := false, is_claimed := false })]
          treasury := 5 } 1 50 7 1745300000 = Except.ok s' ∧
      s'.treasury = 5 ∧
      s'.game.total_player_pot = 5 ∧
      s'.game.final_claim_deadline = some FINAL_CLAIM_DEADLINE_TIMESTAMP ∧
      findBet 1 s'.bets =
        some { commitment := 50007, amount := 5
               attempted_reveal := true, is_claimed := false } :=
  deferred_reveal_completes_without_transfer (fun g sl => g * 1000 + sl)
    { game :=
        { authority := GAME_AUTHORITY_PUBKEY
          result := some 50
          is_open_for_bets := false
          is_open_for_reveals := true
          bet_count := 1
          total_player_pot := 5
          submission_deadline := some SUBMISSION_DEADLINE_TIMESTAMP
          reveal_deadline := some REVEAL_DEADLINE_TIMESTAMP
          final_claim_deadline := none }
      bets := [(1,
        { commitment := 50007, amount := 5
          attempted_reveal := false, is_claimed := false })]
      treasury := 5 } 1 50 7 1745300000
    { commitment := 50007, amount := 5
      attempted_reveal := false, is_claimed := false } 50
    (by decide) (by decide) (by decide) (by decide) (by decide)
    (by decide) (by decide) (by decide) (by decide) (by decide) (by decide)
    (by decide)

/-- C4: the payout of a winning reveal is
`floor(amount * PAYOUT_MULTIPLIER_LUT[difference] / 1_000_000)`, computed
exactly (the `u128` intermediate cannot overflow and the final `u64` cast
never truncates for amounts admitted by `CommitBet`); a paid reveal
transfers exactly that amount out of the treasury; at stake
`1_000_000_000` the payout is `4_000_000_000` at difference 0 and
`3_490_497_000` at difference 1. -/
theorem paid_reveal_transfers_lut_payout :
    (∀ amount d, amount ≤ LAMPORTS_PER_SOL → d ≤ 100 →
      amount * lutGet d < 2 ^ 128 ∧
      payoutAmount amount d = amount * lutGet d / PAYOUT_SCALE) ∧
    payoutAmount 1000000000 0 = 4000000000 ∧
    payoutAmount 1000000000 1 = 3490497000 ∧
    (∀ (hash : Nat → Nat → Nat) (s : Chain) (p g sl : Nat) (now : Int)
      (bc : BetCommitment) (r : Nat),
      s.game.is_open_for_reveals = true →
      ¬ s.game.submission_deadline = none →
      optionLt (some now) s.game.reveal_deadline = true →
      findBet p s.bets = some bc →
      bc.amount ≤ s.game.total_player_pot →
      g ≤ 100 →
      s.game.result = some r →
      hash g sl = bc.commitment →
      g ≤ r → r ≤ 100 →
      ¬ payoutAmount bc.amount (r - g) = 0 →
      s.game.total_player_pot ≤ s.treasury →
      payoutAmount bc.amount (r - g) ≤ s.treasury - s.game.total_player_pot →
      reveal_and_claim hash s p g sl now =
        Except.ok { s with
          game := { s.game with
            total_player_pot := s.game.total_player_pot - bc.amount }
          bets := removeBet p s.bets
          treasury := s.treasury - payoutAmount bc.amount (r - g) }) := by
  have hmax : ∀ d, d ≤ 100 → lutGet d ≤ 4000000 := by decide
  refine ⟨?_, by decide, by decide, ?_⟩
  · intro amount d h1 h2
    have hle : amount * lutGet d ≤ 1000000000 * 4000000 :=
      Nat.mul_le_mul h1 (hmax d h2)
    refine ⟨lt_of_le_of_lt hle (by norm_num), ?_⟩
    unfold payoutAmount
    exact Nat.mod_eq_of_lt
      (lt_of_le_of_lt (le_trans (Nat.div_le_self _ _) hle) (by norm_num))
  · intro hash s p g sl now bc r hopen hsub hrd hbc hpot hg hres hhash hwin hr
      hnz hliq hcov
    rw [reveal_and_claim_guards hash s p g sl now bc r hopen hsub hrd hbc hpot hg
      hres hhash]
    have hL : PAYOUT_MULTIPLIER_LUT.length = 101 := rfl
    exact revealSettle_paid s p bc r g (by omega) (by omega) hnz hliq (by omega)
      hpot

theorem paid_reveal_transfers_lut_payout_witness :
    reveal_and_claim (fun g sl => g * 1000 + sl)
        { game :=
            { authority := GAME_AUTHORITY_PUBKEY
              result := some 50
              is_open_for_bets := false
              is_open_for_reveals := true
              bet_count := 1
              total_player_pot := 1000000000
              submission_deadline := some SUBMISSION_DEADLINE_TIMESTAMP
              reveal_deadline := some REVEAL_DEADLINE_TIMESTAMP
              final_claim_deadline := none }
          bets := [(1,
            { commitment := 50007, amount := 1000000000
              attempted_reveal := false, is_claimed := false })]
          treasury := 5000000000 } 1 50 7 1745300000 =
      Except.ok
        { game :=
            { authority := GAME_AUTHORITY_PUBKEY
              result := some 50
              is_open_for_bets := false
              is_open_for_reveals := true
              bet_count := 1
              total_player_pot := 0
              submission_deadline := some SUBMISSION_DEADLINE_TIMESTAMP
              reveal_deadline := some REVEAL_DEADLINE_TIMESTAMP
              final_claim_deadline := none }
          bets := []
          treasury := 1000000000 } := by
  have h := paid_reveal_transfers_lut_payout.2.2.2 (fun g sl => g * 1000 + sl)
    { game :=
        { authority := GAME_AUTHORITY_PUBKEY
          result := some 50
          is_open_for_bets := false
          is_open_for_reveals := true
          bet_count := 1
          total_player_pot := 1000000000
          submission_deadline := some SUBMISSION_DEADLINE_TIMESTAMP
          reveal_deadline := some REVEAL_DEADLINE_TIMESTAMP
          final_claim_deadline := none }
      bets := [(1,
        { commitment := 50007, amount := 1000000000
          attempted_reveal := false, is_claimed := false })]
      treasury := 5000000000 } 1 50 7 1745300000
    { commitment := 50007, amount := 1000000000
      attempted_reveal := false, is_claimed := false } 50
    (by decide) (by decide) (by decide) (by decide) (by decide) (by decide)
    (by decide) (by decide) (by decide) (by decide) (by decide) (by decide)
    (by decide)
  simpa using h

/-- C5: for every fixed amount the payout
`floor(amount * PAYOUT_MULTIPLIER_LUT[d] / 1_000_000)` is non-increasing
as the difference grows from 0 to 100, and difference 0 carries the
maximum multiplier of the table. -/
theorem payout_curve_monotone :
    (∀ amount d d', d ≤ d' → d' ≤ 100 →
      payoutFloor amount d' ≤ payoutFloor amount d) ∧
    (∀ d, d ≤ 100 → lutGet d ≤ lutGet 0) := by
  have hlut : ∀ d', d' ≤ 100 → ∀ d, d ≤ d' → lutGet d' ≤ lutGet d := by decide
  constructor
  · intro amount d d' hdd hd'
    unfold payoutFloor
    exact Nat.div_le_div_right (Nat.mul_le_mul_left amount (hlut d' hd' d hdd))
  · intro d hd
    exact hlut d hd 0 (Nat.zero_le d)

theorem payout_curve_monotone_witness :
    payoutFloor 1000000000 100 ≤ payoutFloor 1000000000 1 ∧
    lutGet 55 ≤ lutGet 0 :=
  ⟨payout_curve_monotone.1 1000000000 1 100 (by decide) (by decide),
    payout_curve_monotone.2 55 (by decide)⟩

/-- C6: a reveal with a matching commitment and `guess > outcome` settles
as an unconditional loss: the operation succeeds, nothing is transferred
(treasury unchanged), and the pot is decremented by exactly the bet
amount; the bet account is closed. -/
theorem losing_reveal_decrements_pot
    (hash : Nat → Nat → Nat) (s : Chain) (p g sl : Nat) (now : Int)
    (bc : BetCommitment) (r : Nat)
    (hopen : s.game.is_open_for_reveals = true)
    (hsub : ¬ s.game.submission_deadline = none)
    (hrd : optionLt (some now) s.game.reveal_deadline = true)
    (hbc : findBet p s.bets = some bc)
    (hpot : bc.amount ≤ s.game.total_player_pot)
    (hg : g ≤ 100)
    (hres : s.game.result = some r)
    (hhash : hash g sl = bc.commitment)
    (hloss : r < g) :
    reveal_and_claim hash s p g sl now =
      Except.ok { s with
        game := { s.game with
          total_player_pot := s.game.total_player_pot - bc.amount }
        bets := removeBet p s.bets } := by
  rw [reveal_and_claim_guards hash s p g sl now bc r hopen hsub hrd hbc hpot hg
    hres hhash]
  exact revealSettle_loss s p bc r g hloss hpot

theorem losing_reveal_decrements_pot_witness :
    reveal_and_claim (fun g sl => g * 1000 + sl)
        { game :=
            { authority := GAME_AUTHORITY_PUBKEY
              result := some 50
              is_open_for_bets := false
              is_open_for_reveals := true
              bet_count := 1
              total_player_pot := 5
              submission_deadline := some SUBMISSION_DEADLINE_TIMESTAMP
              reveal_deadline := some REVEAL_DEADLINE_TIMESTAMP
              final_claim_deadline := none }
          bets := [(1,
            { commitment := 51007, amount := 5
              attempted_reveal := false, is_claimed := false })]
          treasury := 5 } 1 51 7 1745300000 =
      Except.ok
        { game :=
            { authority := GAME_AUTHORITY_PUBKEY
              result := some 50
              is_open_for_bets := false
              is_open_for_reveals := true
              bet_count := 1
              total_player_pot := 0
              submission_deadline := some SUBMISSION_DEADLINE_TIMESTAMP
              reveal_deadline := some REVEAL_DEADLINE_TIMESTAMP
              final_claim_deadline := none }
          bets := []
          treasury := 5 } := by
  have h := losing_reveal_decrements_pot (fun g sl => g * 1000 + sl)
    { game :=
        { authority := GAME_AUTHORITY_PUBKEY
          result := some 50
          is_open_for_bets := false
          is_open_for_reveals := true
          bet_count := 1
          total_player_pot := 5
          submission_deadline := some SUBMISSION_DEADLINE_TIMESTAMP
          reveal_deadline := some REVEAL_DEADLINE_TIMESTAMP
          final_claim_deadline := none }
      bets := [(1,
        { commitment := 51007, amount := 5
          attempted_reveal := false, is_claimed := false })]
      treasury := 5 } 1 51 7 1745300000
    { commitment := 51007, amount := 5
      attempted_reveal := false, is_claimed := false } 50
    (by decide) (by decide) (by decide) (by decide) (by decide) (by decide)
    (by decide) (by decide) (by decide)
  simpa using h

lemma revealSettle_ne_commitment_mismatch (s : Chain) (p : Nat)
    (bc : BetCommitment) (r g : Nat) :
    ¬ revealSettle s p bc r g = Except.error (.gameError .CommitmentMismatch) := by
  intro h
  simp [revealSettle, ite_eq_iff, require_eq_error_iff, okOr_eq_error_iff] at h

/-- C7: the reveal handler recomputes the digest of the supplied
`(guess, salt)` and compares it with the stored commitment: whenever the
recomputed digest differs the transaction is rejected with
`CommitmentMismatch` (hence, the host rolling back, with no state change),
and whenever it matches the handler proceeds and never raises
`CommitmentMismatch`. -/
theorem reveal_rejects_commitment_mismatch :
    (∀ (hash : Nat → Nat → Nat) (s : Chain) (p g sl : Nat) (now : Int)
      (bc : BetCommitment) (r : Nat),
      s.game.is_open_for_reveals = true →
      ¬ s.game.submission_deadline = none →
      optionLt (some now) s.game.reveal_deadline = true →
      findBet p s.bets = some bc →
      bc.amount ≤ s.game.total_player_pot →
      g ≤ 100 →
      s.game.result = some r →
      ¬ hash g sl = bc.commitment →
      reveal_and_claim hash s p g sl now =
        Except.error (.gameError .CommitmentMismatch)) ∧
    (∀ (hash : Nat → Nat → Nat) (s : Chain) (p g sl : Nat) (now : Int)
      (bc : BetCommitment),
      findBet p s.bets = some bc →
      hash g sl = bc.commitment →
      ¬ reveal_and_claim hash s p g sl now =
        Except.error (.gameError .CommitmentMismatch)) := by
  constructor
  · intro hash s p g sl now bc r hopen hsub hrd hbc hpot hg hres hmm
    simp only [reveal_and_claim, require_pos hopen, require_pos hsub,
      require_pos hrd, hbc, withAccount_some, require_pos hpot, require_pos hg,
      hres, require_neg hmm]
  · intro hash s p g sl now bc hbc hhash hcm
    unfold reveal_and_claim at hcm
    by_cases h1 : s.game.is_open_for_reveals = true
    case neg =>
      rw [require_neg h1] at hcm
      exact absurd hcm (by decide)
    rw [require_pos h1] at hcm
    by_cases h2 : s.game.submission_deadline = none
    case pos =>
      rw [require_neg (fun hc => hc h2)] at hcm
      exact absurd hcm (by decide)
    rw [require_pos h2] at hcm
    by_cases h3 : optionLt (some now) s.game.reveal_deadline = true
    case neg =>
      rw [require_neg h3] at hcm
      exact absurd hcm (by decide)
    rw [require_pos h3, hbc, withAccount_some] at hcm
    by_cases h4 : bc.amount ≤ s.game.total_player_pot
    case neg =>
      rw [require_neg h4] at hcm
      exact absurd hcm (by decide)
    rw [require_pos h4] at hcm
    by_cases h5 : g ≤ 100
    case neg =>
      rw [require_neg h5] at hcm
      exact absurd hcm (by decide)
    rw [require_pos h5] at hcm
    cases hres : s.game.result with
    | none =>
      simp only [hres] at hcm
      exact absurd hcm (by decide)
    | some r =>
      simp only [hres, require_pos hhash] at hcm
      exact revealSettle_ne_commitment_mismatch s p bc r g hcm

theorem reveal_rejects_commitment_mismatch_witness :
    reveal_and_claim (fun g sl => g * 1000 + sl)
        { game :=
            { authority := GAME_AUTHORITY_PUBKEY
              result := some 50
              is_open_for_bets := false
              is_open_for_reveals := true
              bet_count := 1
              total_player_pot := 5
              submission_deadline := some SUBMISSION_DEADLINE_TIMESTAMP
              reveal_deadline := some REVEAL_DEADLINE_TIMESTAMP
              final_claim_deadline := none }
          bets := [(1,
            { commitment := 50007, amount := 5
              attempted_reveal := false, is_claimed := false })]
          treasury := 5 } 1 49 7 1745300000 =
      Except.error (.gameError .CommitmentMismatch) :=
  reveal_rejects_commitment_mismatch.1 (fun g sl => g * 1000 + sl)
    { game :=
        { authority := GAME_AUTHORITY_PUBKEY
          result := some 50
          is_open_for_bets := false
          is_open_for_reveals := true
          bet_count := 1
          total_player_pot := 5
          submission_deadline := some SUBMISSION_DEADLINE_TIMESTAMP
          reveal_deadline := some REVEAL_DEADLINE_TIMESTAMP
          final_claim_deadline := none }
      bets := [(1,
        { commitment := 50007, amount := 5
          attempted_reveal := false, is_claimed := false })]
      treasury := 5 } 1 49 7 1745300000
    { commitment := 50007, amount := 5
      attempted_reveal := false, is_claimed := false } 50
    (by decide) (by decide) (by decide) (by decide) (by decide) (by decide)
    (by decide) (by decide)

lemma findBet_mem (p : Nat) (l : List (Nat × BetCommitment)) (b : BetCommitment)
    (h : findBet p l = some b) : (p, b) ∈ l := by
  induction l with
  | nil => simp [findBet] at h
  | cons hd tl ih =>
    obtain ⟨q, b'⟩ := hd
    by_cases hq : q = p
    · simp only [findBet, if_pos hq, Option.some.injEq] at h
      subst hq
      subst h
      exact List.mem_cons_self _ _
    · simp only [findBet, if_neg hq] at h
      exact List.mem_cons_of_mem _ (ih h)

lemma mem_removeBet (p : Nat) (l : List (Nat × BetCommitment))
    (x : Nat × BetCommitment) (h : x ∈ removeBet p l) : x ∈ l := by
  induction l with
  | nil => simp [removeBet] at h
  | cons hd tl ih =>
    obtain ⟨q, b⟩ := hd
    by_cases hq : q = p
    · simp only [removeBet, if_pos hq] at h
      exact List.mem_cons_of_mem _ h
    · simp only [removeBet, if_neg hq] at h
      rcases List.mem_cons.mp h with h1 | h2
      · exact List.mem_cons.mpr (Or.inl h1)
      · exact List.mem_cons_of_mem _ (ih h2)

lemma mem_setBet (p : Nat) (nb : BetCommitment) (l : List (Nat × BetCommitment))
    (x : Nat × BetCommitment) (h : x ∈ setBet p nb l) : x.2 = nb ∨ x ∈ l := by
  induction l with
  | nil => simp [setBet] at h
  | cons hd tl ih =>
    obtain ⟨q, b⟩ := hd
    by_cases hq : q = p
    · simp only [setBet, if_pos hq] at h
      rcases List.mem_cons.mp h with h1 | h2
      · exact Or.inl (by simp [h1])
      · exact Or.inr (List.mem_cons_of_mem _ h2)
    · simp only [setBet, if_neg hq] at h
      rcases List.mem_cons.mp h with h1 | h2
      · exact Or.inr (List.mem_cons.mpr (Or.inl h1))
      · rcases ih h2 with h3 | h4
        · exact Or.inl h3
        · exact Or.inr (List.mem_cons_of_mem _ h4)

/-- Every `BetCommitment` account still in storage has `is_claimed = false`:
`is_claimed` is only ever set to `true` on the paid path, which closes the
account in the same transaction. -/
def BetsUnclaimed (s : Chain) : Prop :=
  ∀ pb ∈ s.bets, pb.2.is_claimed = false

lemma betsUnclaimed_init (t0 : Nat) : BetsUnclaimed (initialize_game t0) := by
  simp [BetsUnclaimed, initialize_game]

lemma betsUnclaimed_commit (s : Chain) (p c a : Nat) (now : Int) (s' : Chain)
    (h : commit_bet s p c a now = Except.ok s') (hB : BetsUnclaimed s) :
    BetsUnclaimed s' := by
  simp only [commit_bet, require_eq_ok_iff, ite_error_eq_ok_iff, okOr_eq_ok_iff,
    checkedAdd64_eq_some_iff, Except.ok.injEq] at h
  obtain ⟨-, -, -, -, -, -, count', -, pot', -, hs⟩ := h
  subst hs
  intro pb hpb
  rcases List.mem_cons.mp hpb with h1 | h2
  · simp [h1]
  · exact hB pb h2

lemma betsUnclaimed_submit (s : Chain) (caller r : Nat) (now : Int) (s' : Chain)
    (h : submit_results s caller r now = Except.ok s') (hB : BetsUnclaimed s) :
    BetsUnclaimed s' := by
  simp only [submit_results, require_eq_ok_iff, Except.ok.injEq] at h
  obtain ⟨-, -, -, -, -, -, hs⟩ := h
  subst hs
  exact hB

lemma betsUnclaimed_reveal (hash : Nat → Nat → Nat) (s : Chain) (p g sl : Nat)
    (now : Int) (s' : Chain)
    (h : reveal_and_claim hash s p g sl now = Except.ok s')
    (hB : BetsUnclaimed s) : BetsUnclaimed s' := by
  cases hres : s.game.result with
  | none =>
    simp only [reveal_and_claim, hres, require_eq_ok_iff, withAccount_eq_ok_iff] at h
    obtain ⟨-, -, -, bc, hbc, -, -, h⟩ := h
    exact Except.noConfusion h
  | some tr =>
    simp only [reveal_and_claim, revealSettle, hres, require_eq_ok_iff,
      withAccount_eq_ok_iff, okOr_eq_ok_iff, checkedSub64_eq_some_iff,
      ite_except_eq_ok_iff, Except.ok.injEq] at h
    obtain ⟨-, -, -, bc, hbc, -, -, -, h⟩ := h
    rcases h with ⟨-, pot', -, hs⟩ | ⟨-, -, h⟩
    · subst hs
      intro pb hpb
      exact hB pb (mem_removeBet p s.bets pb hpb)
    · rcases h with ⟨-, pot', -, hs⟩ | ⟨-, hl, -, h⟩
      · subst hs
        intro pb hpb
        exact hB pb (mem_removeBet p s.bets pb hpb)
      · rcases h with ⟨-, hs⟩ | ⟨-, pot', -, hs⟩
        · subst hs
          intro pb hpb
          rcases mem_setBet p _ s.bets pb hpb with h3 | h4
          · simp [h3]
          · exact hB pb h4
        · subst hs
          intro pb hpb
          exact hB pb (mem_removeBet p s.bets pb hpb)

lemma betsUnclaimed_withdraw (s : Chain) (p : Nat) (now : Int) (s' : Chain)
    (h : withdraw_unpaid_bet s p now = Except.ok s') (hB : BetsUnclaimed s) :
    BetsUnclaimed s' := by
  simp only [withdraw_unpaid_bet, require_eq_ok_iff, withAccount_eq_ok_iff,
    okOr_eq_ok_iff, checkedSub64_eq_some_iff, Except.ok.injEq] at h
  obtain ⟨-, bc, hbc, -, -, -, -, -, -, pot', -, hs⟩ := h
  subst hs
  intro pb hpb
  exact hB pb (mem_removeBet p s.bets pb hpb)

lemma betsUnclaimed_reclaim (s : Chain) (p : Nat) (now : Int) (s' : Chain)
    (h : reclaim_bet_on_timeout s p now = Except.ok s') (hB : BetsUnclaimed s) :
    BetsUnclaimed s' := by
  simp only [reclaim_bet_on_timeout, require_eq_ok_iff, withAccount_eq_ok_iff,
    okOr_eq_ok_iff, checkedSub64_eq_some_iff, Except.ok.injEq] at h
  obtain ⟨-, -, -, bc, hbc, -, pot', -, hs⟩ := h
  subst hs
  intro pb hpb
  exact hB pb (mem_removeBet p s.bets pb hpb)

lemma betsUnclaimed_sweep (s : Chain) (caller : Nat) (now : Int) (s' : Chain)
    (h : claim_remaining_treasury s caller now = Except.ok s')
    (hB : BetsUnclaimed s) : BetsUnclaimed s' := by
  simp only [claim_remaining_treasury, require_eq_ok_iff, Except.ok.injEq] at h
  obtain ⟨-, -, -, -, -, hs⟩ := h
  subst hs
  exact hB

/-- C8: `WithdrawUnpaidBet` is callable exactly when the bet has
`attempted_reveal = true`, `is_claimed = false`, and the clock lies
strictly between the reveal deadline and the final-claim deadline; on
success it refunds exactly the original amount from the escrow and
decrements the pot by that amount; with the escrow balance below the
amount it fails with `InsufficientTreasuryForReclaim` and (the host
rolling back) no state change.  The `is_claimed = false` component holds
for every stored bet: the last conjuncts show `BetsUnclaimed` (no stored
bet is claimed) is established by `InitializeGame` and preserved by every
operation, since the paid path closes the account it marks claimed. -/
theorem withdraw_unpaid_bet_exact_window :
    (∀ (s : Chain) (p : Nat) (now : Int) (bc : BetCommitment),
      BetsUnclaimed s →
      s.game.is_open_for_reveals = true →
      findBet p s.bets = some bc →
      bc.amount ≤ s.game.total_player_pot →
      ((∃ s', withdraw_unpaid_bet s p now = Except.ok s') ↔
        (bc.attempted_reveal = true ∧ bc.is_claimed = false ∧
          (∃ rd, s.game.reveal_deadline = some rd ∧ rd < now) ∧
          (∃ fd, s.game.final_claim_deadline = some fd ∧ now < fd) ∧
          bc.amount ≤ s.treasury))) ∧
    (∀ (s : Chain) (p : Nat) (now : Int) (bc : BetCommitment),
      s.game.is_open_for_reveals = true →
      findBet p s.bets = some bc →
      bc.amount ≤ s.game.total_player_pot →
      bc.attempted_reveal = true →
      (∃ rd, s.game.reveal_deadline = some rd ∧ rd < now) →
      (∃ fd, s.game.final_claim_deadline = some fd ∧ now < fd) →
      bc.amount ≤ s.treasury →
      withdraw_unpaid_bet s p now =
        Except.ok
          { game := { s.game with
              total_player_pot := s.game.total_player_pot - bc.amount }
            bets := removeBet p s.bets
            treasury := s.treasury - bc.amount }) ∧
    (∀ (s : Chain) (p : Nat) (now : Int) (bc : BetCommitment),
      s.game.is_open_for_reveals = true →
      findBet p s.bets = some bc →
      bc.attempted_reveal = true →
      (∃ rd, s.game.reveal_deadline = some rd ∧ rd < now) →
      (∃ fd, s.game.final_claim_deadline = some fd ∧ now < fd) →
      ¬ bc.amount ≤ s.treasury →
      withdraw_unpaid_bet s p now =
        Except.error (.gameError .InsufficientTreasuryForReclaim)) ∧
    (∀ t0 : Nat, BetsUnclaimed (initialize_game t0)) ∧
    (∀ (s : Chain) (p c a : Nat) (now : Int) (s' : Chain),
      commit_bet s p c a now = Except.ok s' → BetsUnclaimed s →
      BetsUnclaimed s') ∧
    (∀ (s : Chain) (caller r : Nat) (now : Int) (s' : Chain),
      submit_results s caller r now = Except.ok s' → BetsUnclaimed s →
      BetsUnclaimed s') ∧
    (∀ (hash : Nat → Nat → Nat) (s : Chain) (p g sl : Nat) (now : Int)
      (s' : Chain),
      reveal_and_claim hash s p g sl now = Except.ok s' → BetsUnclaimed s →
      BetsUnclaimed s') ∧
    (∀ (s : Chain) (p : Nat) (now : Int) (s' : Chain),
      withdraw_unpaid_bet s p now = Except.ok s' → BetsUnclaimed s →
      BetsUnclaimed s') ∧
    (∀ (s : Chain) (p : Nat) (now : Int) (s' : Chain),
      reclaim_bet_on_timeout s p now = Except.ok s' → BetsUnclaimed s →
      BetsUnclaimed s') ∧
    (∀ (s : Chain) (caller : Nat) (now : Int) (s' : Chain),
      claim_remaining_treasury s caller now = Except.ok s' → BetsUnclaimed s →
      BetsUnclaimed s') := by
  refine ⟨?_, ?_, ?_, betsUnclaimed_init, betsUnclaimed_commit,
    betsUnclaimed_submit, betsUnclaimed_reveal, betsUnclaimed_withdraw,
    betsUnclaimed_reclaim, betsUnclaimed_sweep⟩
  · intro s p now bc hB hopen hbc hpot
    constructor
    · rintro ⟨s', hs'⟩
      simp only [withdraw_unpaid_bet, require_eq_ok_iff, withAccount_eq_ok_iff,
        okOr_eq_ok_iff, checkedSub64_eq_some_iff] at hs'
      obtain ⟨-, bc', hbc', hat, hrdne, hrdlt, hfdne, hfdlt, htr, x, ⟨-, -⟩, -⟩ :=
        hs'
      rw [hbc] at hbc'
      injection hbc' with hbceq
      subst hbceq
      have hnc : bc.is_claimed = false := hB (p, bc) (findBet_mem p s.bets bc hbc)
      refine ⟨hat, hnc, ?_, ?_, htr⟩
      · cases hrdc : s.game.reveal_deadline with
        | none => exact absurd hrdc hrdne
        | some rd =>
          rw [hrdc] at hrdlt
          simp only [optionLt, decide_eq_true_eq] at hrdlt
          exact ⟨rd, rfl, hrdlt⟩
      · cases hfdc : s.game.final_claim_deadline with
        | none => exact absurd hfdc hfdne
        | some fd =>
          rw [hfdc] at hfdlt
          simp only [optionLt, decide_eq_true_eq] at hfdlt
          exact ⟨fd, rfl, hfdlt⟩
    · rintro ⟨hat, -, ⟨rd, hrd, hlt⟩, ⟨fd, hfd, hlt2⟩, htr⟩
      exact ⟨_, by
        unfold withdraw_unpaid_bet
        rw [require_pos hopen, hbc, withAccount_some, require_pos hat,
          require_pos (by simp [hrd]), require_pos (by simp [optionLt, hrd, hlt]),
          require_pos (by simp [hfd]),
          require_pos (by simp [optionLt, hfd, hlt2]),
          require_pos htr, checkedSub64_of_le hpot, okOr_some]⟩
  · intro s p now bc hopen hbc hpot hat hw1 hw2
    obtain ⟨rd, hrd, hlt⟩ := hw1
    obtain ⟨fd, hfd, hlt2⟩ := hw2
    intro htr
    unfold withdraw_unpaid_bet
    rw [require_pos hopen, hbc, withAccount_some, require_pos hat,
      require_pos (by simp [hrd]), require_pos (by simp [optionLt, hrd, hlt]),
      require_pos (by simp [hfd]), require_pos (by simp [optionLt, hfd, hlt2]),
      require_pos htr, checkedSub64_of_le hpot, okOr_some]
  · intro s p now bc hopen hbc hat hw1 hw2 htr
    obtain ⟨rd, hrd, hlt⟩ := hw1
    obtain ⟨fd, hfd, hlt2⟩ := hw2
    unfold withdraw_unpaid_bet
    rw [require_pos hopen, hbc, withAccount_some, require_pos hat,
      require_pos (by simp [hrd]), require_pos (by simp [optionLt, hrd, hlt]),
      require_pos (by simp [hfd]), require_pos (by simp [optionLt, hfd, hlt2]),
      require_neg htr]

theorem withdraw_unpaid_bet_exact_window_witness :
    withdraw_unpaid_bet
        { game :=
            { authority := GAME_AUTHORITY_PUBKEY
              result := some 50
              is_open_for_bets := false
              is_open_for_reveals := true
              bet_count := 1
              total_player_pot := 5
              submission_deadline := some SUBMISSION_DEADLINE_TIMESTAMP
              reveal_deadline := some REVEAL_DEADLINE_TIMESTAMP
              final_claim_deadline := some FINAL_CLAIM_DEADLINE_TIMESTAMP }
          bets := [(1,
            { commitment := 50007, amount := 5
              attempted_reveal := true, is_claimed := false })]
          treasury := 5 } 1 1745900000 =
      Except.ok
        { game :=
            { authority := GAME_AUTHORITY_PUBKEY
              result := some 50
              is_open_for_bets := false
              is_open_for_reveals := true
              bet_count := 1
              total_player_pot := 0
              submission_deadline := some SUBMISSION_DEADLINE_TIMESTAMP
              reveal_deadline := some REVEAL_DEADLINE_TIMESTAMP
              final_claim_deadline := some FINAL_CLAIM_DEADLINE_TIMESTAMP }
          bets := []
          treasury := 0 } := by
  have h := withdraw_unpaid_bet_exact_window.2.1
    { game :=
        { authority := GAME_AUTHORITY_PUBKEY
          result := some 50
          is_open_for_bets := false
          is_open_for_reveals := true
          bet_count := 1
          total_player_pot := 5
          submission_deadline := some SUBMISSION_DEADLINE_TIMESTAMP
          reveal_deadline := some REVEAL_DEADLINE_TIMESTAMP
          final_claim_deadline := some FINAL_CLAIM_DEADLINE_TIMESTAMP }
      bets := [(1,
        { commitment := 50007, amount := 5
          attempted_reveal := true, is_claimed := false })]
      treasury := 5 } 1 1745900000
    { commitment := 50007, amount := 5
      attempted_reveal := true, is_claimed := false }
    (by decide) (by decide) (by decide) (by decide)
    ⟨REVEAL_DEADLINE_TIMESTAMP, by decide, by decide⟩
    ⟨FINAL_CLAIM_DEADLINE_TIMESTAMP, by decide, by decide⟩ (by decide)
  simpa using h

/-- A betting-phase state with one fully backed 5-lamport bet and the
outcome still unset. -/
def reclaimBoundaryState : Chain :=
  { game :=
      { authority := GAME_AUTHORITY_PUBKEY
        result := none
        is_open_for_bets := true
        is_open_for_reveals := false
        bet_count := 1
        total_player_pot := 5
        submission_deadline := some SUBMISSION_DEADLINE_TIMESTAMP
        reveal_deadline := none
        final_claim_deadline := none }
    bets := [(1,
      { commitment := 0, amount := 5, attempted_reveal := false, is_claimed := false })]
    treasury := 5 }

/-- C9 counterexample: at the very instant `now = submissionDeadline`,
with the outcome unset, the bet present, and the escrow covering the
amount — all of the claim's preconditions — `ReclaimBetOnTimeout` is
rejected with `SubmissionPeriodExpired`: the guard in
`struct ReclaimBetOnTimeout` requires `Some(now) > submission_deadline`
strictly, so the claim's "including the instant `now == submissionDeadline`"
is false. -/
theorem reclaim_rejected_at_deadline_instant :
    reclaimBoundaryState.game.result = none ∧
    reclaimBoundaryState.game.submission_deadline =
      some SUBMISSION_DEADLINE_TIMESTAMP ∧
    findBet 1 reclaimBoundaryState.bets =
      some { commitment := 0, amount := 5
             attempted_reveal := false, is_claimed := false } ∧
    (5 : Nat) ≤ reclaimBoundaryState.treasury ∧
    reclaim_bet_on_timeout reclaimBoundaryState 1 SUBMISSION_DEADLINE_TIMESTAMP =
      Except.error (.gameError .SubmissionPeriodExpired) := by
  decide

/-- C9 (amended): `ReclaimBetOnTimeout` is callable by a participant
exactly when the outcome is unset and the current time is strictly after
the submission deadline (`now > submissionDeadline`; the instant
`now = submissionDeadline` is rejected); given escrow balance ≥ amount it
refunds exactly the participant's amount and decrements the pot by that
amount, independently of the other stored bets; with the escrow short it
fails with `InsufficientTreasuryForReclaim`. -/
theorem reclaim_strictly_after_deadline :
    (∀ (s : Chain) (p : Nat) (now : Int) (bc : BetCommitment),
      findBet p s.bets = some bc →
      bc.amount ≤ s.game.total_player_pot →
      ((∃ s', reclaim_bet_on_timeout s p now = Except.ok s') ↔
        (s.game.result = none ∧
          (∃ sd, s.game.submission_deadline = some sd ∧ sd < now) ∧
          bc.amount ≤ s.treasury))) ∧
    (∀ (s : Chain) (p : Nat) (now : Int) (bc : BetCommitment),
      findBet p s.bets = some bc →
      bc.amount ≤ s.game.total_player_pot →
      s.game.result = none →
      (∃ sd, s.game.submission_deadline = some sd ∧ sd < now) →
      bc.amount ≤ s.treasury →
      reclaim_bet_on_timeout s p now =
        Except.ok
          { game := { s.game with
              total_player_pot := s.game.total_player_pot - bc.amount }
            bets := removeBet p s.bets
            treasury := s.treasury - bc.amount }) ∧
    (∀ (s : Chain) (p : Nat) (now : Int) (bc : BetCommitment),
      findBet p s.bets = some bc →
      s.game.result = none →
      (∃ sd, s.game.submission_deadline = some sd ∧ sd < now) →
      ¬ bc.amount ≤ s.treasury →
      reclaim_bet_on_timeout s p now =
        Except.error (.gameError .InsufficientTreasuryForReclaim)) := by
  refine ⟨?_, ?_, ?_⟩
  · intro s p now bc hbc hpot
    constructor
    · rintro ⟨s', hs'⟩
      simp only [reclaim_bet_on_timeout, require_eq_ok_iff, withAccount_eq_ok_iff,
        okOr_eq_ok_iff, checkedSub64_eq_some_iff] at hs'
      obtain ⟨hres, hsdne, hsdlt, bc', hbc', htr, x, ⟨-, -⟩, -⟩ := hs'
      rw [hbc] at hbc'
      injection hbc' with hbceq
      subst hbceq
      refine ⟨hres, ?_, htr⟩
      cases hsdc : s.game.submission_deadline with
      | none => exact absurd hsdc hsdne
      | some sd =>
        rw [hsdc] at hsdlt
        simp only [optionLt, decide_eq_true_eq] at hsdlt
        exact ⟨sd, rfl, hsdlt⟩
    · rintro ⟨hres, ⟨sd, hsd, hlt⟩, htr⟩
      exact ⟨_, by
        unfold reclaim_bet_on_timeout
        rw [require_pos hres, require_pos (by simp [hsd]),
          require_pos (by simp [optionLt, hsd, hlt]), hbc, withAccount_some,
          require_pos htr, checkedSub64_of_le hpot, okOr_some]⟩
  · intro s p now bc hbc hpot hres hw htr
    obtain ⟨sd, hsd, hlt⟩ := hw
    unfold reclaim_bet_on_timeout
    rw [require_pos hres, require_pos (by simp [hsd]),
      require_pos (by simp [optionLt, hsd, hlt]), hbc, withAccount_some,
      require_pos htr, checkedSub64_of_le hpot, okOr_some]
  · intro s p now bc hbc hres hw htr
    obtain ⟨sd, hsd, hlt⟩ := hw
    unfold reclaim_bet_on_timeout
    rw [require_pos hres, require_pos (by simp [hsd]),
      require_pos (by simp [optionLt, hsd, hlt]), hbc, withAccount_some,
      require_neg htr]

theorem reclaim_strictly_after_deadline_witness :
    reclaim_bet_on_timeout
        { game :=
            { authority := GAME_AUTHORITY_PUBKEY
              result := none
              is_open_for_bets := true
              is_open_for_reveals := false
              bet_count := 2
              total_player_pot := 8
              submission_deadline := some SUBMISSION_DEADLINE_TIMESTAMP
              reveal_deadline := none
              final_claim_deadline := none }
          bets := [(1,
            { commitment := 0, amount := 5
              attempted_reveal := false, is_claimed := false }), (2,
            { commitment := 3, amount := 3
              attempted_reveal := false, is_claimed := false })]
          treasury := 8 } 1 (SUBMISSION_DEADLINE_TIMESTAMP + 1) =
      Except.ok
        { game :=
            { authority := GAME_AUTHORITY_PUBKEY
              result := none
              is_open_for_bets := true
              is_open_for_reveals := false
              bet_count := 2
              total_player_pot := 3
              submission_deadline := some SUBMISSION_DEADLINE_TIMESTAMP
              reveal_deadline := none
              final_claim_deadline := none }
          bets := [(2,
            { commitment := 3, amount := 3
              attempted_reveal := false, is_claimed := false })]
          treasury := 3 } := by
  have h := reclaim_strictly_after_deadline.2.1
    { game :=
        { authority := GAME_AUTHORITY_PUBKEY
          result := none
          is_open_for_bets := true
          is_open_for_reveals := false
          bet_count := 2
          total_player_pot := 8
          submission_deadline := some SUBMISSION_DEADLINE_TIMESTAMP
          reveal_deadline := none
          final_claim_deadline := none }
      bets := [(1,
        { commitment := 0, amount := 5
          attempted_reveal := false, is_claimed := false }), (2,
        { commitment := 3, amount := 3
          attempted_reveal := false, is_claimed := false })]
      treasury := 8 } 1 (SUBMISSION_DEADLINE_TIMESTAMP + 1)
    { commitment := 0, amount := 5
      attempted_reveal := false, is_claimed := false }
    (by decide) (by decide) (by decide)
    ⟨SUBMISSION_DEADLINE_TIMESTAMP, by decide, by decide⟩ (by decide)
  simpa using h

/-- C10 (implicit): a winning reveal whose computed payout floors to zero
(reachable, e.g. a 9-lamport stake at difference 100) succeeds, transfers
nothing, decrements the pot by the bet amount, closes the bet account, and
never sets `attempted_reveal` or the final claim deadline — it is settled
exactly like a loss even though `guess ≤ outcome` classifies it as a win. -/
theorem zero_payout_win_settles_as_loss :
    payoutAmount 9 100 = 0 ∧
    (∀ (hash : Nat → Nat → Nat) (s : Chain) (p g sl : Nat) (now : Int)
      (bc : BetCommitment) (r : Nat),
      s.game.is_open_for_reveals = true →
      ¬ s.game.submission_deadline = none →
      optionLt (some now) s.game.reveal_deadline = true →
      findBet p s.bets = some bc →
      bc.amount ≤ s.game.total_player_pot →
      g ≤ 100 →
      s.game.result = some r →
      hash g sl = bc.commitment →
      g ≤ r → r ≤ 100 →
      payoutAmount bc.amount (r - g) = 0 →
      reveal_and_claim hash s p g sl now =
        Except.ok { s with
          game := { s.game with
            total_player_pot := s.game.total_player_pot - bc.amount }
          bets := removeBet p s.bets }) := by
  refine ⟨by decide, ?_⟩
  intro hash s p g sl now bc r hopen hsub hrd hbc hpot hg hres hhash hwin hr hz
  rw [reveal_and_claim_guards hash s p g sl now bc r hopen hsub hrd hbc hpot hg
    hres hhash]
  have hL : PAYOUT_MULTIPLIER_LUT.length = 101 := rfl
  exact revealSettle_zero s p bc r g (by omega) (by omega) hz hpot

theorem zero_payout_win_settles_as_loss_witness :
    reveal_and_claim (fun g sl => g * 1000 + sl)
        { game :=
            { authority := GAME_AUTHORITY_PUBKEY
              result := some 100
              is_open_for_bets := false
              is_open_for_reveals := true
              bet_count := 1
              total_player_pot := 9
              submission_deadline := some SUBMISSION_DEADLINE_TIMESTAMP
              reveal_deadline := some REVEAL_DEADLINE_TIMESTAMP
              final_claim_deadline := none }
          bets := [(1,
            { commitment := 7, amount := 9
              attempted_reveal := false, is_claimed := false })]
          treasury := 9 } 1 0 7 1745300000 =
      Except.ok
        { game :=
            { authority := GAME_AUTHORITY_PUBKEY
              result := some 100
              is_open_for_bets := false
              is_open_for_reveals := true
              bet_count := 1
              total_player_pot := 0
              submission_deadline := some SUBMISSION_DEADLINE_TIMESTAMP
              reveal_deadline := some REVEAL_DEADLINE_TIMESTAMP
              final_claim_deadline := none }
          bets := []
          treasury := 9 } := by
  have h := zero_payout_win_settles_as_loss.2 (fun g sl => g * 1000 + sl)
    { game :=
        { authority := GAME_AUTHORITY_PUBKEY
          result := some 100
          is_open_for_bets := false
          is_open_for_reveals := true
          bet_count := 1
          total_player_pot := 9
          submission_deadline := some SUBMISSION_DEADLINE_TIMESTAMP
          reveal_deadline := some REVEAL_DEADLINE_TIMESTAMP
          final_claim_deadline := none }
      bets := [(1,
        { commitment := 7, amount := 9
          attempted_reveal := false, is_claimed := false })]
      treasury := 9 } 1 0 7 1745300000
    { commitment := 7, amount := 9
      attempted_reveal := false, is_claimed := false } 100
    (by decide) (by decide) (by decide) (by decide) (by decide) (by decide)
    (by decide) (by decide) (by decide) (by decide) (by decide)
  simpa using h

end NugWager
